import Mathlib

/-!
Verification of the session controller of the youtube/webpage chat
application (`src/app/controller.py`), as a shallow embedding in Lean 4.

The controller owns the session state (loaded content, message history,
model catalog, active model) and mediates calls into an injected chat
backend (`llm_client`) and content fetcher (`fetcher`).  Python mutation
is modelled by explicit state passing: each operation takes the state and
returns the state after the call together with an `Except` result that
models the Python return value or raised exception.  Because a Python
exception leaves every mutation performed before the `raise` in place,
operations always return the final state, also in the error case.
-/

namespace Controller

/-- A chat message, Python dict `{"role": ..., "content": ...}`. -/
structure Message where
  role : String
  content : String
deriving Repr, DecidableEq

/-- Errors raised by the controller or propagated from collaborators.
`ValueError("Empty user input")`, `ValueError("Model not available")`,
`ValueError("Could not parse YouTube video ID")`,
`RuntimeError("No content loaded to summarize")`, and exceptions
propagated from `llm_client` / `fetcher` (carried as strings). -/
inductive ControllerError where
  | emptyInput
  | invalidModel
  | parseError
  | noContent
  | backendError (e : String)
  | fetchError (e : String)
deriving Repr, DecidableEq

/-- The injected LLM client: duck-typed `{list_models, chat}`.
`list_models` is deterministic per client instance; `chat` receives the
model, the full message history and the `num_ctx` option. -/
structure ChatBackend where
  list_models : Except String (List String)
  chat : String → List Message → Nat → Except String Message

deriving instance DecidableEq for Except

/-- The injected content fetcher: `{fetch_youtube, fetch_webpage}`. -/
structure Fetcher where
  fetch_youtube : String → Except String String
  fetch_webpage : String → Except String String

/-- The mutable fields of `ContentController` (the injected collaborators
are passed to each operation explicitly). -/
structure SessionState where
  available_models : List String
  current_model : String
  transcript : String
  messages : List Message
  source_type : Option String
  loaded_url : Option String
  context_size : Nat
deriving Repr, DecidableEq

/-!
Python string primitives, implemented by structural recursion over the
character list so that the kernel can evaluate them on concrete inputs
(the core `String.splitOn`/`String.trim` are position-based and do not
reduce definitionally).
-/

/-- Is `sep` a prefix of the character list? -/
def charsPrefixOf : List Char → List Char → Bool
  | [], _ => true
  | _ :: _, [] => false
  | p :: ps, x :: xs => p = x && charsPrefixOf ps xs

/-- Python `sep in s` (substring containment) on character lists. -/
def containsChars (sep : List Char) : List Char → Bool
  | [] => sep.isEmpty
  | x :: xs => charsPrefixOf sep (x :: xs) || containsChars sep xs

/-- Left-to-right non-overlapping split, Python `s.split(sep)` for a
nonempty `sep`.  `fuel` bounds the recursion (initially the input
length; each step consumes at least one character). -/
def pySplitAux (sep : List Char) : Nat → List Char → List Char → List (List Char)
  | _, [], acc => [acc.reverse]
  | 0, rest, acc => [acc.reverse ++ rest]
  | fuel + 1, x :: xs, acc =>
    if charsPrefixOf sep (x :: xs) then
      acc.reverse :: pySplitAux sep fuel ((x :: xs).drop sep.length) []
    else
      pySplitAux sep fuel xs (x :: acc)

/-- Python `s.split(sep)` on strings (nonempty `sep`). -/
def splitOnStr (s sep : String) : List String :=
  (pySplitAux sep.data s.data.length s.data []).map String.mk

/-- Python `needle in s` on strings. -/
def containsSub (s needle : String) : Bool :=
  containsChars needle.data s.data

/-- Python whitespace as recognized by `str.strip()`. -/
def pyIsSpace (c : Char) : Bool :=
  c = ' ' || c = '\t' || c = '\n' || c = '\r' || c = '\x0b' || c = '\x0c'

/-- Python `s.strip()`. -/
def pyStrip (s : String) : String :=
  String.mk (((s.data.dropWhile pyIsSpace).reverse.dropWhile pyIsSpace).reverse)

/-- Python `s.rstrip("/")`. -/
def rstripSlash (s : String) : String :=
  String.mk ((s.data.reverse.dropWhile (fun c => c = '/')).reverse)

/-- `_parse_youtube_video_id` (controller.py lines 13-22).  The
`try/except` cannot fire in the pure embedding (string splitting is
total), so every branch yields `some`; the caller's Python falsy test
`if not video_id` is modelled as `none` or `some ""`. -/
def _parse_youtube_video_id (url : String) : Option String :=
  if containsSub url "watch?v=" then
    some (((splitOnStr ((splitOnStr url "watch?v=").getD 1 "") "&")).headD "")
  else if containsSub url "youtu.be" then
    some ((splitOnStr (rstripSlash url) "/").getLastD "")
  else
    -- fallback: last path segment
    some ((splitOnStr (rstripSlash url) "/").getLastD "")

/-- The guard of `load`:
`any(x in url for x in ("youtube.com", "youtu.be", "watch?v="))`. -/
def is_youtube_url (url : String) : Bool :=
  containsSub url "youtube.com" || containsSub url "youtu.be" ||
    containsSub url "watch?v="

/-- `ContentController.__init__`: `default_model` truthy wins, else the
`SELECTED_MODEL` environment value (defaulting to `""`). -/
def init_controller (default_model : Option String)
    (env_selected_model : String) (context_size : Nat) : SessionState :=
  { available_models := []
    current_model :=
      match default_model with
      | some m => if m ≠ "" then m else env_selected_model
      | none => env_selected_model
    transcript := ""
    messages := []
    source_type := none
    loaded_url := none
    context_size := context_size }

/-- `ensure_models`: fetch and cache the catalog when empty, defaulting
an unset `current_model` to the first entry. -/
def ensure_models (be : ChatBackend) (s : SessionState) :
    SessionState × Except String Unit :=
  if s.available_models = [] then
    match be.list_models with
    | .error e => (s, .error e)
    | .ok ms =>
      let s1 := { s with available_models := ms }
      if s1.current_model = "" ∧ ms ≠ [] then
        ({ s1 with current_model := ms.headD "" }, .ok ())
      else
        (s1, .ok ())
  else
    (s, .ok ())

/-- `ensure_models` performs a backend call exactly when the cached
catalog is empty (the guard on controller.py line 45). -/
def ensure_calls_backend (s : SessionState) : Bool :=
  s.available_models = []

/-- `list_models`: ensure the catalog, then return `available_models[:]`
(a copy; with Lean value semantics the copy is the value itself). -/
def list_models (be : ChatBackend) (s : SessionState) :
    SessionState × Except String (List String) :=
  match ensure_models be s with
  | (s1, .error e) => (s1, .error e)
  | (s1, .ok ()) => (s1, .ok s1.available_models)

/-- `set_model`: ensure the catalog, reject a name outside it, otherwise
select it (the `.env` persistence is external I/O, not session state). -/
def set_model (be : ChatBackend) (s : SessionState) (model : String) :
    SessionState × Except ControllerError Unit :=
  match ensure_models be s with
  | (s1, .error e) => (s1, .error (.backendError e))
  | (s1, .ok ()) =>
    if model ∈ s1.available_models then
      ({ s1 with current_model := model }, .ok ())
    else
      (s1, .error .invalidModel)

/-- `_initialize_chat_messages`: the deterministic three-message seed,
chosen by `source_type`.  The Python f-string renders a `None`
`loaded_url` as the text `"None"`. -/
def _initialize_chat_messages (s : SessionState) : SessionState :=
  let dont_consider_advertisements_prompt :=
    "Also, when analyzing the content, ignore any advertisements, " ++
    "promotional material, or unrelated links that may be present. " ++
    "Focus solely on the main content relevant to the topic at hand. "
  let loaded_url_str := match s.loaded_url with
    | some u => u
    | none => "None"
  let triple : String × String × String :=
    if s.source_type = some "webpage" then
      ("You are an intelligent assistant analyzing the contents of a webpage. " ++
        "Use only the provided webpage text as your context. " ++
        "Provide clear, concise, and accurate answers focused on the content. " ++
        "When appropriate, organize information into bullet lists for clarity. " ++
        "Avoid speculation beyond the text and maintain a helpful tone. " ++
        dont_consider_advertisements_prompt,
       "Here is the webpage content (from " ++ loaded_url_str ++ "):\n" ++ s.transcript,
       "I have received the webpage content. You can now ask me questions about the page.")
    else if s.source_type = some "youtube" then
      ("You are an assistant discussing a YouTube video using only the provided subtitles as your context. " ++
        "Focus your responses on the video's content based on these subtitles. Keep your answers clear, concise, and informative. " ++
        "Use bullet lists when it helps to organize key points or steps. Avoid making assumptions beyond the subtitles." ++
        dont_consider_advertisements_prompt,
       "Here are the subtitles:\n" ++ s.transcript,
       "I have received the subtitles. You can now ask me questions about the video.")
    else
      ("You are an assistant. If given, use the provided content as context and keep your answers clear, concise, and informative. " ++
        "Use bullet lists when it helps to organize key points or steps.",
       "Here is the content:\n" ++ s.transcript,
       "I have received the content. You can now ask me questions.")
  { s with messages :=
      [ { role := "system", content := triple.1 },
        { role := "user", content := triple.2.1 },
        { role := "assistant", content := triple.2.2 } ] }

/-- `load`: classify the locator, fetch, and reseed the history.  Note
`self.loaded_url = url` executes before any failure can occur. -/
def load (f : Fetcher) (s : SessionState) (url : String) :
    SessionState × Except ControllerError String :=
  let s0 := { s with loaded_url := some url }
  if is_youtube_url url then
    match _parse_youtube_video_id url with
    | none => (s0, .error .parseError)
    | some vid =>
      if vid = "" then
        (s0, .error .parseError)
      else
        match f.fetch_youtube vid with
        | .error e => (s0, .error (.fetchError e))
        | .ok t =>
          let s1 := { s0 with transcript := t, source_type := some "youtube" }
          let s2 := _initialize_chat_messages s1
          (s2, .ok t)
  else
    match f.fetch_webpage url with
    | .error e => (s0, .error (.fetchError e))
    | .ok t =>
      let s1 := { s0 with transcript := t, source_type := some "webpage" }
      let s2 := _initialize_chat_messages s1
      (s2, .ok t)

/-- The delimiter-wrapped summary prompt built by `summarize`. -/
def summary_prompt (transcript : String) : String :=
  "Please provide a brief summary of the following content:\n" ++
  "<CONTENT>\n" ++ transcript ++ "\n" ++ "</CONTENT>\n" ++
  "Please keep the summary concise and to the point."

/-- `summarize`: require content, ensure models, append the summary
prompt as a user turn, call the backend once, and return the content of
the response without appending it. -/
def summarize (be : ChatBackend) (s : SessionState) :
    SessionState × Except ControllerError String :=
  if s.transcript = "" then
    (s, .error .noContent)
  else
    match ensure_models be s with
    | (s1, .error e) => (s1, .error (.backendError e))
    | (s1, .ok ()) =>
      let s2 := { s1 with messages :=
        s1.messages ++ [{ role := "user", content := summary_prompt s1.transcript }] }
      match be.chat s2.current_model s2.messages s2.context_size with
      | .error e => (s2, .error (.backendError e))
      | .ok resp => (s2, .ok resp.content)

/-- `ask`: reject blank input, ensure models, append the user turn, call
the backend, append the returned assistant message verbatim, and return
its content.  The user turn is appended before the chat call. -/
def ask (be : ChatBackend) (s : SessionState) (user_input : String) :
    SessionState × Except ControllerError String :=
  if pyStrip user_input = "" then
    (s, .error .emptyInput)
  else
    match ensure_models be s with
    | (s1, .error e) => (s1, .error (.backendError e))
    | (s1, .ok ()) =>
      let s2 := { s1 with messages :=
        s1.messages ++ [{ role := "user", content := user_input }] }
      match be.chat s2.current_model s2.messages s2.context_size with
      | .error e => (s2, .error (.backendError e))
      | .ok assistant_message =>
        ({ s2 with messages := s2.messages ++ [assistant_message] },
         .ok assistant_message.content)

/-- `clear_history`: reseed when content is loaded, else empty. -/
def clear_history (s : SessionState) : SessionState :=
  if s.transcript ≠ "" then
    _initialize_chat_messages s
  else
    { s with messages := [] }

/-- `swap_llm_client`: replace the client, reset the cached catalog, and
try to discover the new client's models; on success with a nonempty list
select the first entry; on any discovery failure swallow the error and
clear `current_model`. -/
def swap_llm_client (new_client : ChatBackend) (s : SessionState) :
    SessionState :=
  let s1 := { s with available_models := [] }
  match new_client.list_models with
  | .error _ => { s1 with current_model := "" }
  | .ok ms =>
    match ms with
    | [] => { s1 with available_models := ms }
    | m :: _ => { s1 with available_models := ms, current_model := m }

end Controller

namespace Controller

/-! ### Stub collaborators for concrete instantiations -/

/-- A stub fetcher in the style of the repository's test mocks. -/
def stub_fetcher : Fetcher :=
  { fetch_youtube := fun _ => Except.ok "stub subtitles"
    fetch_webpage := fun _ => Except.ok "This is page text" }

/-- A stub backend echoing a fixed assistant reply. -/
def stub_backend : ChatBackend :=
  { list_models := Except.ok ["model-a", "model-b"]
    chat := fun _ _ _ => Except.ok { role := "assistant", content := "reply" } }

/-- A stub backend whose model discovery fails. -/
def failing_list_backend : ChatBackend :=
  { list_models := Except.error "connection refused"
    chat := fun _ _ _ => Except.ok { role := "assistant", content := "reply" } }

/-- A stub backend whose chat call fails. -/
def failing_chat_backend : ChatBackend :=
  { list_models := Except.ok ["model-a", "model-b"]
    chat := fun _ _ _ => Except.error "chat endpoint down" }

/-- A fresh session as built by `ContentController(client, fetcher)` with
no default model and no persisted `SELECTED_MODEL`. -/
def fresh_session : SessionState := init_controller none "" 32000

/-- A conversation in progress: loaded webpage content, cached catalog,
selected model, seeded history plus one exchange. -/
def conv_session : SessionState :=
  { available_models := ["model-a", "model-b"]
    current_model := "model-a"
    transcript := "This is page text"
    messages := [⟨"system", "ctx"⟩, ⟨"user", "q"⟩, ⟨"assistant", "a"⟩]
    source_type := some "webpage"
    loaded_url := some "https://example.com/page"
    context_size := 32000 }

/-- A session with content loaded but an empty model catalog and no
selected model (content was loaded before any model discovery). -/
def content_nocat_session : SessionState :=
  { conv_session with available_models := [], current_model := "" }

/-- The model-catalog invariant of the spec (§3, invariant 2): a
non-empty `current_model` lies in the cached catalog; and the only way
to hold a non-empty model over an empty catalog is a backend whose
discovery returns the empty list. -/
def ModelInvariant (be : ChatBackend) (s : SessionState) : Prop :=
  (s.current_model ≠ "" → s.available_models ≠ [] →
    s.current_model ∈ s.available_models) ∧
  (s.available_models = [] → s.current_model ≠ "" →
    be.list_models = Except.ok [])

/-- States reachable from a fresh construction (no injected or persisted
model name, mirroring `ContentController(client, fetcher)` with an empty
`SELECTED_MODEL`) through the controller operations; `doSwap` installs a
new backend, `doReset` models `reset` (re-running `__init__` with the
same collaborators). -/
inductive Reachable : ChatBackend → Fetcher → SessionState → Prop where
  | start (be : ChatBackend) (f : Fetcher) (cs : Nat) :
      Reachable be f (init_controller none "" cs)
  | doEnsure (be : ChatBackend) (f : Fetcher) (s : SessionState) :
      Reachable be f s → Reachable be f (ensure_models be s).1
  | doListModels (be : ChatBackend) (f : Fetcher) (s : SessionState) :
      Reachable be f s → Reachable be f (list_models be s).1
  | doSetModel (be : ChatBackend) (f : Fetcher) (s : SessionState)
      (name : String) :
      Reachable be f s → Reachable be f (set_model be s name).1
  | doLoad (be : ChatBackend) (f : Fetcher) (s : SessionState) (url : String) :
      Reachable be f s → Reachable be f (load f s url).1
  | doAsk (be : ChatBackend) (f : Fetcher) (s : SessionState) (u : String) :
      Reachable be f s → Reachable be f (ask be s u).1
  | doSummarize (be : ChatBackend) (f : Fetcher) (s : SessionState) :
      Reachable be f s → Reachable be f (summarize be s).1
  | doClearHistory (be : ChatBackend) (f : Fetcher) (s : SessionState) :
      Reachable be f s → Reachable be f (clear_history s)
  | doReset (be : ChatBackend) (f : Fetcher) (s : SessionState) :
      Reachable be f s → Reachable be f (init_controller none "" 32000)
  | doSwap (be nb : ChatBackend) (f : Fetcher) (s : SessionState) :
      Reachable be f s → Reachable nb f (swap_llm_client nb s)

/-- A session constructed with a persisted/injected model name that the
backend does not offer. -/
def stale_session : SessionState := init_controller (some "stale-model") "" 32000

/-! ### Helper lemmas about the embedded operations -/

theorem init_messages_fields (s : SessionState) :
    (_initialize_chat_messages s).transcript = s.transcript ∧
    (_initialize_chat_messages s).source_type = s.source_type ∧
    (_initialize_chat_messages s).loaded_url = s.loaded_url ∧
    (_initialize_chat_messages s).available_models = s.available_models ∧
    (_initialize_chat_messages s).current_model = s.current_model ∧
    (_initialize_chat_messages s).context_size = s.context_size := by
  unfold _initialize_chat_messages
  exact ⟨rfl, rfl, rfl, rfl, rfl, rfl⟩

theorem init_messages_shape (s : SessionState) :
    ∃ c1 c2 c3 : String,
      (_initialize_chat_messages s).messages =
        [⟨"system", c1⟩, ⟨"user", c2⟩, ⟨"assistant", c3⟩] := by
  unfold _initialize_chat_messages
  by_cases h1 : s.source_type = some "webpage" <;>
    by_cases h2 : s.source_type = some "youtube" <;>
      simp [h1, h2]

theorem init_messages_webpage_user (s : SessionState) (u : String)
    (h : s.source_type = some "webpage") (hu : s.loaded_url = some u) :
    ∃ c1 c3 : String,
      (_initialize_chat_messages s).messages =
        [⟨"system", c1⟩,
         ⟨"user", "Here is the webpage content (from " ++ u ++ "):\n" ++ s.transcript⟩,
         ⟨"assistant", c3⟩] := by
  unfold _initialize_chat_messages
  simp [h, hu]

theorem init_messages_ignores_prior (s : SessionState) (msgs : List Message) :
    _initialize_chat_messages { s with messages := msgs } =
      _initialize_chat_messages s := by
  unfold _initialize_chat_messages
  rfl

theorem init_messages_determined (s₁ s₂ : SessionState)
    (hk : s₁.source_type = s₂.source_type)
    (hl : s₁.loaded_url = s₂.loaded_url)
    (ht : s₁.transcript = s₂.transcript) :
    (_initialize_chat_messages s₁).messages =
      (_initialize_chat_messages s₂).messages := by
  unfold _initialize_chat_messages
  rw [hk, hl, ht]


theorem load_ok_elim (f : Fetcher) (s : SessionState) (url t : String)
    (s' : SessionState) (h : load f s url = (s', Except.ok t)) :
    (is_youtube_url url = true ∧
      ∃ v, _parse_youtube_video_id url = some v ∧ v ≠ "" ∧
        f.fetch_youtube v = Except.ok t ∧
        s' = _initialize_chat_messages
          { s with loaded_url := some url, transcript := t,
                   source_type := some "youtube" }) ∨
    (is_youtube_url url = false ∧ f.fetch_webpage url = Except.ok t ∧
      s' = _initialize_chat_messages
        { s with loaded_url := some url, transcript := t,
                 source_type := some "webpage" }) := by
  unfold load at h
  split at h
  case isTrue hyt =>
    left
    refine ⟨hyt, ?_⟩
    split at h
    case h_1 => simp at h
    case h_2 v hp =>
      split at h
      · simp at h
      case isFalse hv =>
        split at h
        case h_1 => simp at h
        case h_2 t' hf =>
          simp only [Prod.mk.injEq, Except.ok.injEq] at h
          obtain ⟨h1, h2⟩ := h
          subst h2
          exact ⟨v, hp, hv, hf, h1.symm⟩
  case isFalse hyt =>
    right
    refine ⟨by simpa using hyt, ?_⟩
    split at h
    case h_1 => simp at h
    case h_2 t' hf =>
      simp only [Prod.mk.injEq, Except.ok.injEq] at h
      obtain ⟨h1, h2⟩ := h
      subst h2
      exact ⟨hf, h1.symm⟩

/-! ### Claims -/

/-- C2: whenever the history-seeding algorithm runs (after every
successful `load`, and on `clear_history` with content loaded), `history`
becomes exactly three messages in order System, User, Assistant, whose
content is determined by the source kind (together with the locator and
content text); for a webpage the User message is
`"Here is the webpage content (from <locator>):\n<contentText>"`; prior
conversation is discarded and replaced, never appended to. -/
theorem seeding_replaces_history_C2 :
    (∀ (f : Fetcher) (s : SessionState) (url t : String) (s' : SessionState),
        load f s url = (s', Except.ok t) →
        ∃ c1 c2 c3 : String,
          s'.messages = [⟨"system", c1⟩, ⟨"user", c2⟩, ⟨"assistant", c3⟩] ∧
          (s'.source_type = some "webpage" →
            c2 = "Here is the webpage content (from " ++ url ++ "):\n" ++ t))
    ∧ (∀ s : SessionState, s.transcript ≠ "" →
        ∃ c1 c2 c3 : String,
          (clear_history s).messages =
            [⟨"system", c1⟩, ⟨"user", c2⟩, ⟨"assistant", c3⟩] ∧
          (∀ u : String, s.source_type = some "webpage" → s.loaded_url = some u →
            c2 = "Here is the webpage content (from " ++ u ++ "):\n" ++ s.transcript))
    ∧ (∀ (s : SessionState) (msgs : List Message),
        _initialize_chat_messages { s with messages := msgs } =
          _initialize_chat_messages s)
    ∧ (∀ s₁ s₂ : SessionState, s₁.source_type = s₂.source_type →
        s₁.loaded_url = s₂.loaded_url → s₁.transcript = s₂.transcript →
        (_initialize_chat_messages s₁).messages =
          (_initialize_chat_messages s₂).messages) := by
  refine ⟨?_, ?_, init_messages_ignores_prior, init_messages_determined⟩
  · intro f s url t s' h
    rcases load_ok_elim f s url t s' h with
      ⟨hyt, v, hp, hv, hf, hs'⟩ | ⟨hyt, hf, hs'⟩
    · subst hs'
      obtain ⟨c1, c2, c3, hm⟩ := init_messages_shape
        { s with loaded_url := some url, transcript := t,
                 source_type := some "youtube" }
      refine ⟨c1, c2, c3, hm, ?_⟩
      intro hw
      rw [(init_messages_fields _).2.1] at hw
      simp at hw
    · subst hs'
      obtain ⟨c1, c3, hm⟩ := init_messages_webpage_user
        { s with loaded_url := some url, transcript := t,
                 source_type := some "webpage" } url rfl rfl
      exact ⟨c1, _, c3, hm, fun _ => rfl⟩
  · intro s hs
    unfold clear_history
    rw [if_pos hs]
    by_cases hw : s.source_type = some "webpage"
    · cases hl : s.loaded_url with
      | some u0 =>
        obtain ⟨c1, c3, hm⟩ := init_messages_webpage_user s u0 hw hl
        refine ⟨c1, _, c3, hm, ?_⟩
        intro u _ hu
        injection hu with hu
        rw [hu]
      | none =>
        obtain ⟨c1, c2, c3, hm⟩ := init_messages_shape s
        refine ⟨c1, c2, c3, hm, ?_⟩
        intro u _ hu
        cases hu
    · obtain ⟨c1, c2, c3, hm⟩ := init_messages_shape s
      exact ⟨c1, c2, c3, hm, fun u hw' _ => absurd hw' hw⟩

/-- Witness for C2: the first conjunct applied to a concrete webpage
load on a fresh session with the stub fetcher. -/
theorem seeding_replaces_history_C2_witness :
    ∃ c1 c2 c3 : String,
      (load stub_fetcher fresh_session "https://example.com/page").1.messages =
        [⟨"system", c1⟩, ⟨"user", c2⟩, ⟨"assistant", c3⟩] ∧
      ((load stub_fetcher fresh_session "https://example.com/page").1.source_type =
          some "webpage" →
        c2 = "Here is the webpage content (from " ++ "https://example.com/page" ++
          "):\n" ++ "This is page text") :=
  seeding_replaces_history_C2.1 stub_fetcher fresh_session
    "https://example.com/page" "This is page text"
    (load stub_fetcher fresh_session "https://example.com/page").1 rfl

theorem ensure_models_preserves (be : ChatBackend) (s : SessionState) :
    (ensure_models be s).1.messages = s.messages ∧
    (ensure_models be s).1.transcript = s.transcript ∧
    (ensure_models be s).1.source_type = s.source_type ∧
    (ensure_models be s).1.loaded_url = s.loaded_url ∧
    (ensure_models be s).1.context_size = s.context_size := by
  unfold ensure_models
  split
  · split
    · simp
    · dsimp only
      split <;> simp
  · simp

theorem ensure_models_current_kept (be : ChatBackend) (s : SessionState)
    (h : s.current_model ≠ "") :
    (ensure_models be s).1.current_model = s.current_model := by
  unfold ensure_models
  split
  · split
    · simp
    · dsimp only
      split
      · next hc => exact absurd hc.1 h
      · simp
  · simp

theorem ensure_models_cached (be : ChatBackend) (s : SessionState)
    (h : s.available_models ≠ []) :
    ensure_models be s = (s, Except.ok ()) := by
  unfold ensure_models
  rw [if_neg h]

theorem load_err_elim (f : Fetcher) (s : SessionState) (url : String)
    (s' : SessionState) (err : ControllerError)
    (h : load f s url = (s', Except.error err)) :
    s' = { s with loaded_url := some url } := by
  unfold load at h
  split at h
  · split at h
    · exact (Prod.mk.injEq .. ▸ h).1.symm
    · split at h
      · exact (Prod.mk.injEq .. ▸ h).1.symm
      · split at h
        · exact (Prod.mk.injEq .. ▸ h).1.symm
        · simp at h
  · split at h
    · exact (Prod.mk.injEq .. ▸ h).1.symm
    · simp at h

theorem init_messages_eq_update (s : SessionState) :
    ∃ msgs : List Message,
      _initialize_chat_messages s = { s with messages := msgs } := by
  unfold _initialize_chat_messages
  exact ⟨_, rfl⟩

/-- C3: for every `userText` that is non-blank after trimming and a
backend whose chat returns an assistant message, `ask` appends exactly
one User message carrying `userText` and then the returned assistant
message verbatim, and returns its content; blank input fails with the
empty-input error and leaves the session untouched. -/
theorem ask_appends_C3 :
    (∀ (be : ChatBackend) (s : SessionState) (userText : String) (am : Message),
        pyStrip userText ≠ "" →
        (ensure_models be s).2 = Except.ok () →
        (∀ m msgs ctx, be.chat m msgs ctx = Except.ok am) →
        (ask be s userText).1.messages =
            s.messages ++ [⟨"user", userText⟩, am] ∧
          (ask be s userText).2 = Except.ok am.content)
    ∧ (∀ (be : ChatBackend) (s : SessionState) (userText : String),
        pyStrip userText = "" →
        ask be s userText = (s, Except.error ControllerError.emptyInput)) := by
  constructor
  · intro be s userText am hne hens hchat
    unfold ask
    rw [if_neg hne]
    rcases hE : ensure_models be s with ⟨s1, r⟩
    rw [hE] at hens
    simp only at hens
    subst hens
    have hmsgs : s1.messages = s.messages := by
      have := (ensure_models_preserves be s).1
      rw [hE] at this
      exact this
    simp only [hchat, hmsgs]
    simp
  · intro be s userText hb
    unfold ask
    rw [if_pos hb]

/-- Witness for C3: `ask "Hello"` with the stub backend on a fresh
session, and blank `"   "` rejected unchanged. -/
theorem ask_appends_C3_witness :
    ((ask stub_backend fresh_session "Hello").1.messages =
        fresh_session.messages ++
          [⟨"user", "Hello"⟩, ⟨"assistant", "reply"⟩] ∧
      (ask stub_backend fresh_session "Hello").2 =
        Except.ok (Message.mk "assistant" "reply").content) ∧
    ask stub_backend fresh_session "   " =
      (fresh_session, Except.error ControllerError.emptyInput) :=
  ⟨ask_appends_C3.1 stub_backend fresh_session "Hello" ⟨"assistant", "reply"⟩
      (by decide) rfl (fun _ _ _ => rfl),
   ask_appends_C3.2 stub_backend fresh_session "   " (by decide)⟩


theorem ensure_models_eq_fetch_default (be : ChatBackend) (s : SessionState)
    (ms : List String) (hempty : s.available_models = [])
    (hlist : be.list_models = Except.ok ms)
    (hcm : s.current_model = "" ∧ ms ≠ []) :
    ensure_models be s =
      ({ s with available_models := ms, current_model := ms.headD "" },
        Except.ok ()) := by
  unfold ensure_models
  rw [if_pos hempty, hlist]
  dsimp only
  rw [if_pos hcm]

theorem ensure_models_eq_fetch_keep (be : ChatBackend) (s : SessionState)
    (ms : List String) (hempty : s.available_models = [])
    (hlist : be.list_models = Except.ok ms)
    (hcm : ¬(s.current_model = "" ∧ ms ≠ [])) :
    ensure_models be s =
      ({ s with available_models := ms }, Except.ok ()) := by
  unfold ensure_models
  rw [if_pos hempty, hlist]
  dsimp only
  rw [if_neg hcm]

theorem ensure_models_eq_fetch_fail (be : ChatBackend) (s : SessionState)
    (e : String) (hempty : s.available_models = [])
    (hlist : be.list_models = Except.error e) :
    ensure_models be s = (s, Except.error e) := by
  unfold ensure_models
  rw [if_pos hempty, hlist]

theorem list_models_of_ensure_ok (be : ChatBackend) (s s1 : SessionState)
    (h : ensure_models be s = (s1, Except.ok ())) :
    list_models be s = (s1, Except.ok s1.available_models) := by
  unfold list_models
  rw [h]

theorem list_models_of_ensure_err (be : ChatBackend) (s s1 : SessionState)
    (e : String) (h : ensure_models be s = (s1, Except.error e)) :
    list_models be s = (s1, Except.error e) := by
  unfold list_models
  rw [h]

/-- C4: on an empty cached catalog, `list_models` fetches from the
backend (the guard `ensure_calls_backend` is true), caches the nonempty
result so a second call performs no backend call and is a no-op,
defaults an unset `current_model` to the first entry, and returns the
cached catalog; on a failed fetch nothing is cached and the guard stays
true, so a later call retries. -/
theorem list_models_caching_C4 :
    (∀ (be : ChatBackend) (s : SessionState) (ms : List String),
        be.list_models = Except.ok ms → ms ≠ [] → s.available_models = [] →
        ensure_calls_backend s = true ∧
        (list_models be s).1.available_models = ms ∧
        (list_models be s).2 = Except.ok ms ∧
        (s.current_model = "" →
          (list_models be s).1.current_model = ms.headD "") ∧
        ensure_calls_backend (list_models be s).1 = false ∧
        list_models be (list_models be s).1 =
          ((list_models be s).1, Except.ok ms))
    ∧ (∀ (be : ChatBackend) (s : SessionState) (e : String),
        be.list_models = Except.error e → s.available_models = [] →
        list_models be s = (s, Except.error e) ∧
        ensure_calls_backend (list_models be s).1 = true) := by
  constructor
  · intro be s ms hlist hne hempty
    have hcall : ensure_calls_backend s = true := by
      simp [ensure_calls_backend, hempty]
    by_cases hcm : s.current_model = "" ∧ ms ≠ []
    · have h1 : list_models be s =
          ({ s with available_models := ms, current_model := ms.headD "" },
            Except.ok ms) :=
        list_models_of_ensure_ok be s _
          (ensure_models_eq_fetch_default be s ms hempty hlist hcm)
      rw [h1]
      refine ⟨hcall, rfl, rfl, fun _ => rfl, by simp [ensure_calls_backend, hne], ?_⟩
      exact list_models_of_ensure_ok be _ _
        (ensure_models_cached be _ (by simpa using hne))
    · have h1 : list_models be s =
          ({ s with available_models := ms }, Except.ok ms) :=
        list_models_of_ensure_ok be s _
          (ensure_models_eq_fetch_keep be s ms hempty hlist hcm)
      rw [h1]
      refine ⟨hcall, rfl, rfl,
        fun hcm' => absurd ⟨hcm', hne⟩ hcm,
        by simp [ensure_calls_backend, hne], ?_⟩
      exact list_models_of_ensure_ok be _ _
        (ensure_models_cached be _ (by simpa using hne))
  · intro be s e hlist hempty
    have h1 : list_models be s = (s, Except.error e) :=
      list_models_of_ensure_err be s s e
        (ensure_models_eq_fetch_fail be s e hempty hlist)
    refine ⟨h1, ?_⟩
    rw [h1]
    simp [ensure_calls_backend, hempty]

/-- Witness for C4: the stub backend with catalog
`["model-a", "model-b"]` on a fresh session. -/
theorem list_models_caching_C4_witness :
    ensure_calls_backend fresh_session = true ∧
    (list_models stub_backend fresh_session).1.available_models =
      ["model-a", "model-b"] ∧
    (list_models stub_backend fresh_session).2 =
      Except.ok ["model-a", "model-b"] ∧
    (fresh_session.current_model = "" →
      (list_models stub_backend fresh_session).1.current_model =
        (["model-a", "model-b"]).headD "") ∧
    ensure_calls_backend (list_models stub_backend fresh_session).1 = false ∧
    list_models stub_backend (list_models stub_backend fresh_session).1 =
      ((list_models stub_backend fresh_session).1,
        Except.ok ["model-a", "model-b"]) :=
  list_models_caching_C4.1 stub_backend fresh_session ["model-a", "model-b"]
    rfl (by decide) rfl

theorem swap_eq_fail (nb : ChatBackend) (s : SessionState) (e : String)
    (hl : nb.list_models = Except.error e) :
    swap_llm_client nb s =
      { s with available_models := [], current_model := "" } := by
  unfold swap_llm_client
  rw [hl]

theorem swap_eq_empty (nb : ChatBackend) (s : SessionState)
    (hl : nb.list_models = Except.ok []) :
    swap_llm_client nb s = { s with available_models := [] } := by
  unfold swap_llm_client
  rw [hl]

theorem swap_eq_cons (nb : ChatBackend) (s : SessionState) (m : String)
    (ms : List String) (hl : nb.list_models = Except.ok (m :: ms)) :
    swap_llm_client nb s =
      { s with available_models := m :: ms, current_model := m } := by
  unfold swap_llm_client
  rw [hl]

/-- C5: `swap_llm_client` never raises (it is a total state transformer:
discovery errors are swallowed), leaves `history` identical, discards the
old catalog (afterwards the catalog is either empty or the new backend's
list), sets `current_model` to the new backend's first listed model on
successful nonempty discovery, and clears `current_model` to `""` on
discovery failure rather than keeping the previous value. -/
theorem swap_backend_C5 :
    ∀ (nb : ChatBackend) (s : SessionState),
      (swap_llm_client nb s).messages = s.messages ∧
      ((swap_llm_client nb s).available_models = [] ∨
        ∃ ms, nb.list_models = Except.ok ms ∧
          (swap_llm_client nb s).available_models = ms) ∧
      (∀ m ms, nb.list_models = Except.ok (m :: ms) →
        (swap_llm_client nb s).current_model = m ∧
        (swap_llm_client nb s).available_models = m :: ms) ∧
      (∀ e, nb.list_models = Except.error e →
        (swap_llm_client nb s).current_model = "" ∧
        (swap_llm_client nb s).available_models = []) := by
  intro nb s
  refine ⟨?_, ?_, ?_, ?_⟩
  · cases hl : nb.list_models with
    | error e => rw [swap_eq_fail nb s e hl]
    | ok ms =>
      cases ms with
      | nil => rw [swap_eq_empty nb s hl]
      | cons m ms' => rw [swap_eq_cons nb s m ms' hl]
  · cases hl : nb.list_models with
    | error e =>
      rw [swap_eq_fail nb s e hl]
      exact Or.inl rfl
    | ok ms =>
      cases ms with
      | nil =>
        rw [swap_eq_empty nb s hl]
        exact Or.inl rfl
      | cons m ms' =>
        rw [swap_eq_cons nb s m ms' hl]
        exact Or.inr ⟨m :: ms', rfl, rfl⟩
  · intro m ms hok
    rw [swap_eq_cons nb s m ms hok]
    exact ⟨rfl, rfl⟩
  · intro e he
    rw [swap_eq_fail nb s e he]
    exact ⟨rfl, rfl⟩

/-- Witness for C5: swapping `conv_session` to the backend whose model
discovery fails preserves the history and clears the model. -/
theorem swap_backend_C5_witness :
    (swap_llm_client failing_list_backend conv_session).messages =
      conv_session.messages ∧
    (swap_llm_client failing_list_backend conv_session).current_model = "" ∧
    (swap_llm_client failing_list_backend conv_session).available_models = [] :=
  ⟨(swap_backend_C5 failing_list_backend conv_session).1,
   (swap_backend_C5 failing_list_backend conv_session).2.2.2
     "connection refused" rfl⟩

theorem parse_always_some (url : String) :
    ∃ v, _parse_youtube_video_id url = some v := by
  unfold _parse_youtube_video_id
  split
  · exact ⟨_, rfl⟩
  · split
    · exact ⟨_, rfl⟩
    · exact ⟨_, rfl⟩

theorem load_eq_yt_parse_none (f : Fetcher) (s : SessionState) (url : String)
    (hyt : is_youtube_url url = true)
    (hp : _parse_youtube_video_id url = none) :
    load f s url =
      ({ s with loaded_url := some url },
        Except.error ControllerError.parseError) := by
  unfold load
  rw [if_pos hyt, hp]

theorem load_eq_yt_parse_empty (f : Fetcher) (s : SessionState) (url : String)
    (hyt : is_youtube_url url = true)
    (hp : _parse_youtube_video_id url = some "") :
    load f s url =
      ({ s with loaded_url := some url },
        Except.error ControllerError.parseError) := by
  unfold load
  rw [if_pos hyt, hp]
  simp

theorem load_eq_yt_ok (f : Fetcher) (s : SessionState) (url v t : String)
    (hyt : is_youtube_url url = true)
    (hp : _parse_youtube_video_id url = some v) (hv : v ≠ "")
    (hf : f.fetch_youtube v = Except.ok t) :
    load f s url =
      (_initialize_chat_messages
        { s with loaded_url := some url, transcript := t,
                 source_type := some "youtube" }, Except.ok t) := by
  unfold load
  rw [if_pos hyt, hp]
  dsimp only
  rw [if_neg hv, hf]

theorem load_eq_yt_err (f : Fetcher) (s : SessionState) (url v e : String)
    (hyt : is_youtube_url url = true)
    (hp : _parse_youtube_video_id url = some v) (hv : v ≠ "")
    (hf : f.fetch_youtube v = Except.error e) :
    load f s url =
      ({ s with loaded_url := some url },
        Except.error (ControllerError.fetchError e)) := by
  unfold load
  rw [if_pos hyt, hp]
  dsimp only
  rw [if_neg hv, hf]

theorem load_eq_web_ok (f : Fetcher) (s : SessionState) (url t : String)
    (hyt : is_youtube_url url = false)
    (hf : f.fetch_webpage url = Except.ok t) :
    load f s url =
      (_initialize_chat_messages
        { s with loaded_url := some url, transcript := t,
                 source_type := some "webpage" }, Except.ok t) := by
  unfold load
  rw [if_neg (by simp [hyt]), hf]

theorem load_eq_web_err (f : Fetcher) (s : SessionState) (url e : String)
    (hyt : is_youtube_url url = false)
    (hf : f.fetch_webpage url = Except.error e) :
    load f s url =
      ({ s with loaded_url := some url },
        Except.error (ControllerError.fetchError e)) := by
  unfold load
  rw [if_neg (by simp [hyt]), hf]

/-- C6: `load` classifies the locator by the YouTube URL shapes and
dispatches accordingly: for a YouTube-shaped locator it runs the id
extraction and calls `fetch_youtube` on the extracted id (setting
`source_type` to youtube on success), otherwise it calls `fetch_webpage`
on the locator itself (setting `source_type` to webpage on success); it
fails with the locator-unparseable error exactly when the locator is
YouTube-shaped and the extraction yields no identifier, and it
propagates a fetch failure as the content-unavailable error. -/
theorem load_classification_C6 :
    ∀ (f : Fetcher) (s : SessionState) (url : String),
      (is_youtube_url url = true →
        ∀ v, _parse_youtube_video_id url = some v →
          ((v = "" →
            load f s url = ({ s with loaded_url := some url },
              Except.error ControllerError.parseError)) ∧
           (v ≠ "" →
            (∀ t, f.fetch_youtube v = Except.ok t →
              load f s url = (_initialize_chat_messages
                { s with loaded_url := some url, transcript := t,
                         source_type := some "youtube" }, Except.ok t)) ∧
            (∀ e, f.fetch_youtube v = Except.error e →
              load f s url = ({ s with loaded_url := some url },
                Except.error (ControllerError.fetchError e)))))) ∧
      (is_youtube_url url = false →
        (∀ t, f.fetch_webpage url = Except.ok t →
          load f s url = (_initialize_chat_messages
            { s with loaded_url := some url, transcript := t,
                     source_type := some "webpage" }, Except.ok t)) ∧
        (∀ e, f.fetch_webpage url = Except.error e →
          load f s url = ({ s with loaded_url := some url },
            Except.error (ControllerError.fetchError e)))) ∧
      ((load f s url).2 = Except.error ControllerError.parseError ↔
        is_youtube_url url = true ∧
          (_parse_youtube_video_id url = none ∨
            _parse_youtube_video_id url = some "")) ∧
      (∀ s' t, load f s url = (s', Except.ok t) →
        (s'.source_type = some "youtube" ↔ is_youtube_url url = true)) := by
  intro f s url
  refine ⟨?_, ?_, ?_, ?_⟩
  · intro hyt v hp
    constructor
    · intro hv
      subst hv
      exact load_eq_yt_parse_empty f s url hyt hp
    · intro hv
      exact ⟨fun t ht => load_eq_yt_ok f s url v t hyt hp hv ht,
             fun e he => load_eq_yt_err f s url v e hyt hp hv he⟩
  · intro hyt
    exact ⟨fun t ht => load_eq_web_ok f s url t hyt ht,
           fun e he => load_eq_web_err f s url e hyt he⟩
  · constructor
    · intro herr
      by_cases hyt : is_youtube_url url = true
      · obtain ⟨v, hp⟩ := parse_always_some url
        by_cases hv : v = ""
        · exact ⟨hyt, Or.inr (hv ▸ hp)⟩
        · exfalso
          cases hf : f.fetch_youtube v with
          | ok t =>
            rw [load_eq_yt_ok f s url v t hyt hp hv hf] at herr
            cases herr
          | error e =>
            rw [load_eq_yt_err f s url v e hyt hp hv hf] at herr
            cases herr
      · exfalso
        have hyt' : is_youtube_url url = false := by
          simpa using hyt
        cases hf : f.fetch_webpage url with
        | ok t =>
          rw [load_eq_web_ok f s url t hyt' hf] at herr
          cases herr
        | error e =>
          rw [load_eq_web_err f s url e hyt' hf] at herr
          cases herr
    · rintro ⟨hyt, hor⟩
      cases hor with
      | inl hnone =>
        rw [load_eq_yt_parse_none f s url hyt hnone]
      | inr hempty =>
        rw [load_eq_yt_parse_empty f s url hyt hempty]
  · intro s' t h
    rcases load_ok_elim f s url t s' h with
      ⟨hyt, v, hp, hv, hf, hs'⟩ | ⟨hyt, hf, hs'⟩
    · subst hs'
      rw [(init_messages_fields _).2.1]
      simp [hyt]
    · subst hs'
      rw [(init_messages_fields _).2.1]
      simp [hyt]

/-- Witness for C6: a concrete `watch?v=` locator dispatched to the
video fetcher with the extracted id. -/
theorem load_classification_C6_witness :
    load stub_fetcher fresh_session "https://www.youtube.com/watch?v=abc" =
      (_initialize_chat_messages
        { fresh_session with
            loaded_url := some "https://www.youtube.com/watch?v=abc",
            transcript := "stub subtitles",
            source_type := some "youtube" },
        Except.ok "stub subtitles") :=
  (((load_classification_C6 stub_fetcher fresh_session
          "https://www.youtube.com/watch?v=abc").1
        (by decide) "abc" (by decide)).2 (by decide)).1
    "stub subtitles" rfl

theorem ensure_models_err_elim (be : ChatBackend) (s s1 : SessionState)
    (e : String) (h : ensure_models be s = (s1, Except.error e)) :
    s1 = s ∧ be.list_models = Except.error e ∧ s.available_models = [] := by
  unfold ensure_models at h
  split at h
  · next hempty =>
    split at h
    · next e' hl =>
      simp only [Prod.mk.injEq, Except.error.injEq] at h
      exact ⟨h.1.symm, h.2 ▸ hl, hempty⟩
    · dsimp only at h
      split at h <;> simp at h
  · simp at h

/-- C7 counterexample: on a fresh session with no selected model,
`set_model "nonexistent"` fails with the invalid-model error but does
not leave `current_model` unchanged — the ensuring step has already
defaulted it to the catalog's first entry. -/
theorem set_model_C7_counterexample :
    fresh_session.current_model = "" ∧
    (set_model stub_backend fresh_session "nonexistent").2 =
      Except.error ControllerError.invalidModel ∧
    (set_model stub_backend fresh_session "nonexistent").1.current_model =
      "model-a" ∧
    (set_model stub_backend fresh_session "nonexistent").1.current_model ≠
      fresh_session.current_model := by
  decide

/-- C7 (amended): `set_model` first ensures the catalog; when ensuring
succeeds it fails with the invalid-model error exactly when the name is
outside the ensured catalog, leaving the session at the ensured state
(so `current_model` is unchanged whenever it was already non-empty, but
an unset one may have been defaulted by the ensuring step); on success
it sets `current_model` to the name; history is never modified. -/
theorem set_model_C7 :
    ∀ (be : ChatBackend) (s : SessionState) (name : String),
      (set_model be s name).1.messages = s.messages ∧
      (∀ s1, ensure_models be s = (s1, Except.ok ()) →
        ((set_model be s name).2 = Except.error ControllerError.invalidModel ↔
          name ∉ s1.available_models) ∧
        (name ∈ s1.available_models →
          set_model be s name =
            ({ s1 with current_model := name }, Except.ok ())) ∧
        (name ∉ s1.available_models →
          set_model be s name = (s1, Except.error ControllerError.invalidModel)) ∧
        (s.current_model ≠ "" → s1.current_model = s.current_model)) ∧
      (∀ e, ensure_models be s = (s, Except.error e) →
        set_model be s name = (s, Except.error (ControllerError.backendError e))) := by
  intro be s name
  refine ⟨?_, ?_, ?_⟩
  · rcases hE : ensure_models be s with ⟨s1, r⟩
    have hm : s1.messages = s.messages := by
      have := (ensure_models_preserves be s).1
      rw [hE] at this
      exact this
    cases r with
    | error e =>
      have hsm : set_model be s name =
          (s1, Except.error (ControllerError.backendError e)) := by
        unfold set_model
        rw [hE]
      rw [hsm]
      exact hm
    | ok u =>
      cases u
      by_cases hmem : name ∈ s1.available_models
      · have hsm : set_model be s name =
            ({ s1 with current_model := name }, Except.ok ()) := by
          unfold set_model
          rw [hE]
          dsimp only
          rw [if_pos hmem]
        rw [hsm]
        simpa using hm
      · have hsm : set_model be s name =
            (s1, Except.error ControllerError.invalidModel) := by
          unfold set_model
          rw [hE]
          dsimp only
          rw [if_neg hmem]
        rw [hsm]
        exact hm
  · intro s1 hE
    have hsm : set_model be s name =
        if name ∈ s1.available_models then
          ({ s1 with current_model := name }, Except.ok ())
        else (s1, Except.error ControllerError.invalidModel) := by
      unfold set_model
      rw [hE]
    refine ⟨?_, ?_, ?_, ?_⟩
    · constructor
      · intro herr
        intro hmem
        rw [hsm, if_pos hmem] at herr
        cases herr
      · intro hmem
        rw [hsm, if_neg hmem]
    · intro hmem
      rw [hsm, if_pos hmem]
    · intro hmem
      rw [hsm, if_neg hmem]
    · intro hcm
      have := ensure_models_current_kept be s hcm
      rw [hE] at this
      exact this
  · intro e hE
    unfold set_model
    rw [hE]

/-- Witness for C7: on a conversation with a cached catalog and selected
model, rejecting an unknown name leaves everything in place. -/
theorem set_model_C7_witness :
    (set_model stub_backend conv_session "nonexistent").1.messages =
      conv_session.messages ∧
    (((set_model stub_backend conv_session "nonexistent").2 =
        Except.error ControllerError.invalidModel ↔
      "nonexistent" ∉ conv_session.available_models) ∧
     ("nonexistent" ∈ conv_session.available_models →
        set_model stub_backend conv_session "nonexistent" =
          ({ conv_session with current_model := "nonexistent" }, Except.ok ())) ∧
     ("nonexistent" ∉ conv_session.available_models →
        set_model stub_backend conv_session "nonexistent" =
          (conv_session, Except.error ControllerError.invalidModel)) ∧
     (conv_session.current_model ≠ "" →
        conv_session.current_model = conv_session.current_model)) :=
  ⟨(set_model_C7 stub_backend conv_session "nonexistent").1,
   (set_model_C7 stub_backend conv_session "nonexistent").2.1
     conv_session (by decide)⟩

/-- C9: `clear_history` with content loaded re-runs the deterministic
seeding, so it is idempotent: the second call changes nothing and both
calls leave the same three-message seed; with no content it empties the
history. -/
theorem clear_history_idem_C9 :
    (∀ s : SessionState, s.transcript ≠ "" →
        clear_history s = _initialize_chat_messages s ∧
        clear_history (clear_history s) = clear_history s ∧
        ∃ c1 c2 c3 : String,
          (clear_history s).messages =
            [⟨"system", c1⟩, ⟨"user", c2⟩, ⟨"assistant", c3⟩])
    ∧ (∀ s : SessionState, s.transcript = "" →
        (clear_history s).messages = []) := by
  constructor
  · intro s hs
    have h1 : clear_history s = _initialize_chat_messages s := by
      unfold clear_history
      rw [if_pos hs]
    have ht : (_initialize_chat_messages s).transcript ≠ "" := by
      rw [(init_messages_fields s).1]
      exact hs
    have h2 : clear_history (_initialize_chat_messages s) =
        _initialize_chat_messages (_initialize_chat_messages s) := by
      unfold clear_history
      rw [if_pos ht]
    refine ⟨h1, ?_, ?_⟩
    · rw [h1, h2]
      obtain ⟨msgs, hup⟩ := init_messages_eq_update s
      calc _initialize_chat_messages (_initialize_chat_messages s)
          = _initialize_chat_messages { s with messages := msgs } := by rw [hup]
        _ = _initialize_chat_messages s := init_messages_ignores_prior s msgs
    · rw [h1]
      exact init_messages_shape s
  · intro s hs
    unfold clear_history
    rw [if_neg (by simp [hs])]

/-- Witness for C9: clearing twice on a conversation with loaded
content restores the same seed both times. -/
theorem clear_history_idem_C9_witness :
    clear_history conv_session = _initialize_chat_messages conv_session ∧
    clear_history (clear_history conv_session) = clear_history conv_session ∧
    ∃ c1 c2 c3 : String,
      (clear_history conv_session).messages =
        [⟨"system", c1⟩, ⟨"user", c2⟩, ⟨"assistant", c3⟩] :=
  clear_history_idem_C9.1 conv_session (by decide)

/-- C10 counterexample: with content loaded but an empty catalog and a
backend whose model discovery fails, `summarize` raises before building
the prompt, so no User message is appended — the claim's unconditional
"appends exactly one User message" fails for such sessions. -/
theorem summarize_frame_C10_counterexample :
    content_nocat_session.transcript ≠ "" ∧
    (summarize failing_list_backend content_nocat_session).2 =
      Except.error (ControllerError.backendError "connection refused") ∧
    (summarize failing_list_backend content_nocat_session).1.messages =
      content_nocat_session.messages := by
  decide

/-- C10 (amended): with content loaded, when the catalog-ensuring step
succeeds, `summarize` appends exactly one User message — the
delimiter-wrapped summary prompt — which persists in history after the
call, and the backend's assistant response is never appended; this holds
whether the chat call succeeds or fails.  When the ensuring step fails,
nothing is appended and the session is unchanged. -/
theorem summarize_frame_C10 :
    (∀ (be : ChatBackend) (s s1 : SessionState),
        s.transcript ≠ "" →
        ensure_models be s = (s1, Except.ok ()) →
        (summarize be s).1.messages =
          s.messages ++ [⟨"user", summary_prompt s.transcript⟩])
    ∧ (∀ (be : ChatBackend) (s : SessionState) (e : String),
        s.transcript ≠ "" →
        ensure_models be s = (s, Except.error e) →
        summarize be s = (s, Except.error (ControllerError.backendError e))) := by
  constructor
  · intro be s s1 hs hE
    have hmsgs : s1.messages = s.messages := by
      have := (ensure_models_preserves be s).1
      rw [hE] at this
      exact this
    have htr : s1.transcript = s.transcript := by
      have := (ensure_models_preserves be s).2.1
      rw [hE] at this
      exact this
    unfold summarize
    rw [if_neg hs, hE]
    dsimp only
    split
    · dsimp only
      rw [hmsgs, htr]
    · dsimp only
      rw [hmsgs, htr]
  · intro be s e hs hE
    unfold summarize
    rw [if_neg hs, hE]

/-- Witness for C10: summarizing a conversation whose backend chat
fails still leaves exactly the appended summary prompt in history. -/
theorem summarize_frame_C10_witness :
    (summarize failing_chat_backend conv_session).1.messages =
      conv_session.messages ++
        [⟨"user", summary_prompt conv_session.transcript⟩] :=
  summarize_frame_C10.1 failing_chat_backend conv_session conv_session
    (by decide) (by decide)

/-- C1 counterexample: a failed `ask` (backend chat error) does not
leave the session as it was — the User message appended before the chat
call remains in history after the raised error. -/
theorem atomic_failure_C1_counterexample :
    (ask failing_chat_backend conv_session "Hello").2 =
      Except.error (ControllerError.backendError "chat endpoint down") ∧
    (ask failing_chat_backend conv_session "Hello").1.messages ≠
      conv_session.messages ∧
    (ask failing_chat_backend conv_session "Hello").1.messages =
      conv_session.messages ++ [⟨"user", "Hello"⟩] := by
  decide

/-- C1 (amended): failed operations are not fully atomic.  An `ask`
rejected for blank input, an `ask`/`set_model` whose model discovery
fails, and a `set_model` rejecting an invalid name after a successful
ensuring step leave the session exactly at the pre-call (respectively
ensured) state; but a failed `load` still overwrites `loaded_url` with
the attempted locator (all other fields untouched), an `ask` whose
backend chat fails retains the appended User message in history, and
the catalog caching / model defaulting performed by the ensuring step
persists across the subsequent failure. -/
theorem atomic_failure_C1 :
    (∀ (be : ChatBackend) (s : SessionState) (u : String),
        pyStrip u = "" →
        ask be s u = (s, Except.error ControllerError.emptyInput)) ∧
    (∀ (be : ChatBackend) (s : SessionState) (u e : String),
        pyStrip u ≠ "" →
        ensure_models be s = (s, Except.error e) →
        ask be s u = (s, Except.error (ControllerError.backendError e))) ∧
    (∀ (be : ChatBackend) (s s1 : SessionState) (u e : String),
        pyStrip u ≠ "" →
        ensure_models be s = (s1, Except.ok ()) →
        be.chat s1.current_model (s1.messages ++ [⟨"user", u⟩])
          s1.context_size = Except.error e →
        ask be s u = ({ s1 with messages := s1.messages ++ [⟨"user", u⟩] },
          Except.error (ControllerError.backendError e))) ∧
    (∀ (f : Fetcher) (s : SessionState) (url : String) (s' : SessionState)
        (err : ControllerError),
        load f s url = (s', Except.error err) →
        s' = { s with loaded_url := some url }) ∧
    (∀ (be : ChatBackend) (s s1 : SessionState) (name : String),
        ensure_models be s = (s1, Except.ok ()) →
        name ∉ s1.available_models →
        set_model be s name = (s1, Except.error ControllerError.invalidModel)) := by
  refine ⟨?_, ?_, ?_, load_err_elim, ?_⟩
  · intro be s u hb
    unfold ask
    rw [if_pos hb]
  · intro be s u e hb hE
    unfold ask
    rw [if_neg hb, hE]
  · intro be s s1 u e hb hE hchat
    unfold ask
    rw [if_neg hb, hE]
    dsimp only
    rw [hchat]
  · intro be s s1 name hE hmem
    unfold set_model
    rw [hE]
    dsimp only
    rw [if_neg hmem]

/-- Witness for C1 (amended): a blank `ask` leaves the conversation
exactly unchanged. -/
theorem atomic_failure_C1_witness :
    ask stub_backend conv_session "   " =
      (conv_session, Except.error ControllerError.emptyInput) :=
  atomic_failure_C1.1 stub_backend conv_session "   " (by decide)

theorem MI_congr (be : ChatBackend) (s s' : SessionState)
    (h1 : s'.current_model = s.current_model)
    (h2 : s'.available_models = s.available_models)
    (h : ModelInvariant be s) : ModelInvariant be s' := by
  constructor
  · rw [h1, h2]
    exact h.1
  · rw [h1, h2]
    exact h.2

theorem ensure_MI (be : ChatBackend) (s : SessionState)
    (h : ModelInvariant be s) : ModelInvariant be (ensure_models be s).1 := by
  by_cases hempty : s.available_models = []
  · cases hl : be.list_models with
    | error e =>
      rw [ensure_models_eq_fetch_fail be s e hempty hl]
      exact h
    | ok ms =>
      by_cases hcm : s.current_model = "" ∧ ms ≠ []
      · rw [ensure_models_eq_fetch_default be s ms hempty hl hcm]
        constructor
        · intro _ _
          cases ms with
          | nil => exact absurd rfl hcm.2
          | cons a l => exact List.mem_cons_self a l
        · intro hcat _
          exact absurd hcat hcm.2
      · rw [ensure_models_eq_fetch_keep be s ms hempty hl hcm]
        by_cases hc0 : s.current_model = ""
        · constructor
          · intro hc _
            exact absurd hc0 hc
          · intro _ hc
            exact absurd hc0 hc
        · have hms : ms = [] := by
            have h2 := h.2 hempty hc0
            rw [hl] at h2
            injection h2
          subst hms
          constructor
          · intro _ hne
            exact absurd rfl hne
          · intro _ _
            exact hl
  · rw [ensure_models_cached be s hempty]
    exact h

theorem list_models_state (be : ChatBackend) (s : SessionState) :
    (list_models be s).1 = (ensure_models be s).1 := by
  unfold list_models
  rcases hE : ensure_models be s with ⟨s1, r⟩
  cases r with
  | error e => rfl
  | ok u =>
    cases u
    rfl

theorem ask_state_cases (be : ChatBackend) (s : SessionState) (u : String) :
    (ask be s u).1 = s ∨
    ∃ msgs, (ask be s u).1 = { (ensure_models be s).1 with messages := msgs } := by
  unfold ask
  split
  · exact Or.inl rfl
  · rcases hE : ensure_models be s with ⟨s1, r⟩
    cases r with
    | error e =>
      right
      exact ⟨s1.messages, rfl⟩
    | ok u' =>
      cases u'
      dsimp only
      split
      · right
        exact ⟨_, rfl⟩
      · right
        exact ⟨_, rfl⟩

theorem summarize_state_cases (be : ChatBackend) (s : SessionState) :
    (summarize be s).1 = s ∨
    ∃ msgs, (summarize be s).1 =
      { (ensure_models be s).1 with messages := msgs } := by
  unfold summarize
  split
  · exact Or.inl rfl
  · rcases hE : ensure_models be s with ⟨s1, r⟩
    cases r with
    | error e =>
      right
      exact ⟨s1.messages, rfl⟩
    | ok u' =>
      cases u'
      dsimp only
      split
      · right
        exact ⟨_, rfl⟩
      · right
        exact ⟨_, rfl⟩

theorem set_model_state_cases (be : ChatBackend) (s : SessionState)
    (name : String) :
    (set_model be s name).1 = (ensure_models be s).1 ∨
    ∃ s1, ensure_models be s = (s1, Except.ok ()) ∧
      name ∈ s1.available_models ∧
      (set_model be s name).1 = { s1 with current_model := name } := by
  unfold set_model
  rcases hE : ensure_models be s with ⟨s1, r⟩
  cases r with
  | error e =>
    left
    rfl
  | ok u' =>
    cases u'
    dsimp only
    by_cases hmem : name ∈ s1.available_models
    · right
      rw [if_pos hmem]
      exact ⟨s1, rfl, hmem, rfl⟩
    · left
      rw [if_neg hmem]

theorem load_model_fields (f : Fetcher) (s : SessionState) (url : String) :
    (load f s url).1.current_model = s.current_model ∧
    (load f s url).1.available_models = s.available_models := by
  rcases hR : load f s url with ⟨s', r⟩
  dsimp only
  cases r with
  | ok t =>
    rcases load_ok_elim f s url t s' hR with
      ⟨_, _, _, _, _, hs'⟩ | ⟨_, _, hs'⟩ <;>
    · subst hs'
      exact ⟨(init_messages_fields _).2.2.2.2.1, (init_messages_fields _).2.2.2.1⟩
  | error err =>
    have := load_err_elim f s url s' err hR
    subst this
    exact ⟨rfl, rfl⟩

theorem clear_model_fields (s : SessionState) :
    (clear_history s).current_model = s.current_model ∧
    (clear_history s).available_models = s.available_models := by
  unfold clear_history
  split
  · exact ⟨(init_messages_fields s).2.2.2.2.1, (init_messages_fields s).2.2.2.1⟩
  · exact ⟨rfl, rfl⟩

theorem swap_MI (nb : ChatBackend) (s : SessionState) :
    ModelInvariant nb (swap_llm_client nb s) := by
  cases hl : nb.list_models with
  | error e =>
    rw [swap_eq_fail nb s e hl]
    exact ⟨fun hc _ => absurd rfl hc, fun _ hc => absurd rfl hc⟩
  | ok ms =>
    cases ms with
    | nil =>
      rw [swap_eq_empty nb s hl]
      exact ⟨fun _ hne => absurd rfl hne, fun _ _ => hl⟩
    | cons m ms' =>
      rw [swap_eq_cons nb s m ms' hl]
      constructor
      · intro _ _
        exact List.mem_cons_self m ms'
      · intro hcat _
        cases hcat

theorem reachable_MI (be : ChatBackend) (f : Fetcher) (s : SessionState)
    (h : Reachable be f s) : ModelInvariant be s := by
  induction h with
  | start be f cs =>
    exact ⟨fun hc _ => absurd rfl hc, fun _ hc => absurd rfl hc⟩
  | doEnsure be f s _ ih => exact ensure_MI be s ih
  | doListModels be f s _ ih =>
    rw [list_models_state be s]
    exact ensure_MI be s ih
  | doSetModel be f s name _ ih =>
    rcases set_model_state_cases be s name with h | ⟨s1, hE, hmem, hs'⟩
    · rw [h]
      exact ensure_MI be s ih
    · rw [hs']
      constructor
      · intro _ _
        exact hmem
      · intro hcat _
        rw [hcat] at hmem
        cases hmem
  | doLoad be f s url _ ih =>
    exact MI_congr be s _ (load_model_fields f s url).1
      (load_model_fields f s url).2 ih
  | doAsk be f s u _ ih =>
    rcases ask_state_cases be s u with h | ⟨msgs, hs'⟩
    · rw [h]
      exact ih
    · rw [hs']
      exact MI_congr be _ _ rfl rfl (ensure_MI be s ih)
  | doSummarize be f s _ ih =>
    rcases summarize_state_cases be s with h | ⟨msgs, hs'⟩
    · rw [h]
      exact ih
    · rw [hs']
      exact MI_congr be _ _ rfl rfl (ensure_MI be s ih)
  | doClearHistory be f s _ ih =>
    exact MI_congr be s _ (clear_model_fields s).1 (clear_model_fields s).2 ih
  | doReset be f s _ _ =>
    exact ⟨fun hc _ => absurd rfl hc, fun _ hc => absurd rfl hc⟩
  | doSwap be nb f s _ _ => exact swap_MI nb s

/-- C8 counterexample: session construction loads a persisted model name
without validating it: after the first catalog fetch (with no backend
swap), `current_model` is non-empty yet not a member of the freshly
fetched `available_models` — construction does not preserve the claimed
invariant. -/
theorem model_invariant_C8_counterexample :
    stale_session.current_model = "stale-model" ∧
    (list_models stub_backend stale_session).1.current_model =
      "stale-model" ∧
    (list_models stub_backend stale_session).1.available_models =
      ["model-a", "model-b"] ∧
    ¬ (list_models stub_backend stale_session).1.current_model ∈
        (list_models stub_backend stale_session).1.available_models := by
  decide

/-- C8 (amended): the invariant holds for sessions whose construction
supplies no model name (no constructor default and empty persisted
`SELECTED_MODEL`): in every state reachable through the controller
operations, a non-empty `current_model` with a non-empty cached catalog
is a member of that (most recently fetched) catalog.  A
constructor-supplied or persisted initial model name is never validated
against the catalog and can break the invariant. -/
theorem model_invariant_C8 :
    ∀ (be : ChatBackend) (f : Fetcher) (s : SessionState),
      Reachable be f s →
      s.current_model ≠ "" → s.available_models ≠ [] →
      s.current_model ∈ s.available_models :=
  fun be f s h => (reachable_MI be f s h).1

/-- Witness for C8: after `list_models` on a freshly constructed
session, the defaulted model is in the fetched catalog. -/
theorem model_invariant_C8_witness :
    (list_models stub_backend fresh_session).1.current_model ∈
      (list_models stub_backend fresh_session).1.available_models :=
  model_invariant_C8 stub_backend stub_fetcher
    (list_models stub_backend fresh_session).1
    (Reachable.doListModels stub_backend stub_fetcher fresh_session
      (Reachable.start stub_backend stub_fetcher 32000))
    (by decide) (by decide)
